import Mathlib

/-!
Shallow embedding of the tricycle fleet-dispatch simulator
(src/generator/entities.py, src/generator/util/__init__.py,
src/generator/scenarios/real.py) and verification of the frozen claims.

External collaborators (the OSRM route planner, the haversine metric and
the corridor-membership test, see spec section 6) are modelled as abstract
oracles bundled in an `Env` value: pure functions with the interface the
source calls, since their numeric bodies (HTTP calls, floating trig) are
outside the embedded core.
-/

namespace TriSim

/-- Planar or geographic coordinate (entities.Point). Coordinates are
modelled as rationals. -/
structure Point where
  x : ℚ
  y : ℚ
deriving DecidableEq

instance : Inhabited Point := ⟨⟨0, 0⟩⟩

/-- entities.PassengerStatus -/
inductive PassengerStatus
  | WAITING
  | ENQUEUED
  | ONBOARD
  | COMPLETED
deriving DecidableEq

/-- entities.TricycleStatus -/
inductive TricycleStatus
  | IDLE
  | SERVING
  | TERMINAL
  | ROAMING
  | RETURNING
  | ENQUEUING
deriving DecidableEq

/-- Kinds of entries in the append-only event logs. DROPOFF renders the
source string DROP-OFF and NEW_ROAM_PATH its literal counterpart. -/
inductive EventKind
  | APPEAR
  | ENQUEUE
  | LOAD
  | DROPOFF
  | RESET
  | WAIT
  | MOVE
  | FINISH
  | NEW_ROAM_PATH
deriving DecidableEq

/-- The data payload of an event record: absent, a string id, or an int. -/
inductive EventData
  | nil
  | str (s : String)
  | int (n : ℤ)
deriving DecidableEq

/-- Wraps an optional tricycle id as event data (used by DROP-OFF and
RESET records, whose data field is the possibly absent claimed_by). -/
def EventData.ofOpt : Option String → EventData
  | none => .nil
  | some s => .str s

/-- One entry of an event log; the source stores location as [x, y]. -/
structure Event where
  kind : EventKind
  data : EventData
  time : ℤ
  location : Point
deriving DecidableEq

/-- entities.Passenger: identity, endpoints, status, claim and audit log. -/
structure Passenger where
  id : String
  src : Point
  dest : Point
  createTime : ℤ
  deathTime : ℤ
  status : PassengerStatus
  pickupTime : ℤ
  claimed_by : Option String
  path : List Point
  events : List Event
deriving DecidableEq

/-- Passenger construction (Passenger.__init__): status WAITING,
pickupTime -1, no claim, and an APPEAR event at the source. -/
def Passenger.init (id : String) (src dest : Point) (createTime deathTime : ℤ) : Passenger :=
  { id := id
    src := src
    dest := dest
    createTime := createTime
    deathTime := deathTime
    status := .WAITING
    pickupTime := -1
    claimed_by := none
    path := [src]
    events := [⟨.APPEAR, .nil, createTime, src⟩] }

/-- Passenger.onEnqueue: unconditionally sets status to ENQUEUED, records
the claiming tricycle and appends an ENQUEUE event (the source performs no
status check). -/
def Passenger.onEnqueue (p : Passenger) (trike_id : String) (time : ℤ) (location : Point) : Passenger :=
  { p with
    status := .ENQUEUED
    claimed_by := some trike_id
    events := p.events ++ [⟨.ENQUEUE, .str trike_id, time, location⟩] }

/-- Passenger.onLoad: appends a LOAD event, sets status ONBOARD,
pickupTime and claimed_by. -/
def Passenger.onLoad (p : Passenger) (trike_id : String) (time : ℤ) (location : Point) : Passenger :=
  { p with
    events := p.events ++ [⟨.LOAD, .str trike_id, time, location⟩]
    status := .ONBOARD
    pickupTime := time
    claimed_by := some trike_id }

/-- Passenger.onDropoff: appends a DROP-OFF event (data is the current
claimed_by), sets status COMPLETED and deathTime. claimed_by is NOT
cleared by the source. -/
def Passenger.onDropoff (p : Passenger) (time : ℤ) (location : Point) : Passenger :=
  { p with
    events := p.events ++ [⟨.DROPOFF, EventData.ofOpt p.claimed_by, time, location⟩]
    status := .COMPLETED
    deathTime := time }

/-- Passenger.onReset: back to WAITING, clears the claim, appends a RESET
event whose data is the tricycle id held before clearing. -/
def Passenger.onReset (p : Passenger) (time : ℤ) (location : Point) : Passenger :=
  { p with
    status := .WAITING
    claimed_by := none
    events := p.events ++ [⟨.RESET, EventData.ofOpt p.claimed_by, time, location⟩] }

/-- The external collaborators of spec section 6, abstracted as pure
oracles: findRoute models util.find_path_between_points_in_osrm (returning
the waypoint list or the NoRoute signal), haversine models util.haversine
(great-circle distance in meters), and isEnRouteB models util.is_en_route
(corridor membership, which may itself signal NoRoute). -/
structure Env where
  findRoute : Point → Point → Except Unit (List Point)
  haversine : Point → Point → ℚ
  isEnRouteB : Point → Point → Point → Except Unit Bool

/-- Module constant PICKUP_RADIUS_METERS of entities.py. -/
def PICKUP_RADIUS_METERS : ℚ := 20

/-- Map.isAtLocation with its default threshold of 2.0 meters (no caller
in the verified code passes another threshold). -/
def Map.isAtLocation (env : Env) (point1 point2 : Point) : Bool :=
  decide (env.haversine point1 point2 ≤ 2)

/-- Map.getNearbyPassengers: all passengers of the registry whose source
is within the radius of the point. -/
def Map.getNearbyPassengers (env : Env) (passengers : List Passenger) (point : Point) (radiusMeters : ℚ) : List Passenger :=
  passengers.filter (fun p => decide (env.haversine point p.src ≤ radiusMeters))

/-- entities.Tricycle, restricted to the fields the verified operations
read or write. The current position is the last element of path; the
scheduler is the injected policy function (None gives first-come). -/
structure Tricycle where
  id : String
  capacity : ℕ
  active : Bool
  isRoaming : Bool
  scheduler : Option (Point → List Passenger → ℕ × Passenger)
  cycleCount : ℕ
  maxCycles : ℕ
  s_enqueue_radius_meters : ℚ
  enqueue_radius_meters : ℚ
  passengers : List Passenger
  enqueuedPassenger : Option Passenger
  status : TricycleStatus
  path : List Point
  to_go : List Point
  events : List Event

/-- Tricycle.curPoint: the last element of the traveled path (the
constructor always seeds path with the start point, so the default of
getLastD is never reached on constructed vehicles). -/
def Tricycle.curPoint (t : Tricycle) : Point :=
  t.path.getLastD default

/-- Tricycle.hasPassenger -/
def Tricycle.hasPassenger (t : Tricycle) : Bool :=
  decide (0 < t.passengers.length)

/-- The valid_transitions dict of Tricycle.validateStatusTransition. -/
def valid_transitions : TricycleStatus → List TricycleStatus
  | .IDLE => [.SERVING, .TERMINAL, .ENQUEUING]
  | .SERVING => [.RETURNING, .ROAMING]
  | .TERMINAL => [.SERVING, .ENQUEUING]
  | .ROAMING => [.SERVING, .ENQUEUING]
  | .RETURNING => [.TERMINAL, .ENQUEUING]
  | .ENQUEUING => [.SERVING, .ROAMING, .IDLE]

/-- Tricycle.validateStatusTransition -/
def Tricycle.validateStatusTransition (t : Tricycle) (new_status : TricycleStatus) : Bool :=
  decide (new_status ∈ valid_transitions t.status)

/-- Tricycle.updateStatus: sets the status and reports success when the
transition is valid, otherwise leaves the vehicle unchanged and reports
failure. -/
def Tricycle.updateStatus (t : Tricycle) (new_status : TricycleStatus) : Tricycle × Bool :=
  if t.validateStatusTransition new_status then ({ t with status := new_status }, true)
  else (t, false)

/-- The priority argument of Tricycle.updatePath. -/
inductive Priority
  | replace
  | front
  | append
deriving DecidableEq

/-- The first guard of Tricycle.updatePath: while enqueuing, a route
request is blocked when there is no claimed passenger or the destination
is not at the claimed passenger source. -/
def Tricycle.updatePathBlocked (env : Env) (t : Tricycle) (new_destination : Point) : Bool :=
  match t.enqueuedPassenger with
  | none => true
  | some q => !(Map.isAtLocation env new_destination q.src)

/-- The decision core of Tricycle.updatePath. The only field the source
method mutates is to_go, so the core returns the replacement queue (none
when the queue is untouched) together with the boolean result; raising
NoRoute anywhere inside the try block of the source is rendered by the
error arms, all of which yield (none, false) exactly as the except arm
does. -/
def Tricycle.updatePathCore (env : Env) (t : Tricycle) (new_destination : Point) (priority : Priority) : Option (List Point) × Bool :=
  -- Only block path updates if we are enqueuing and this is not for the
  -- enqueued passenger.
  if t.status = .ENQUEUING ∧ t.updatePathBlocked env new_destination = true then (none, false)
  else if Map.isAtLocation env t.curPoint new_destination then (none, true)
  else
    match env.findRoute t.curPoint new_destination with
    | .error _ => (none, false)
    | .ok path =>
      if path.length = 0 then (none, false)
      else if path.length < 2 then (none, false)
      else if t.to_go.getLast? = some new_destination then (none, true)
      else
        match priority with
        | .replace => (some path, true)
        | .front =>
          match t.to_go with
          | [] => (some path, true)
          | h0 :: restq =>
            match env.findRoute t.curPoint new_destination with
            | .error _ => (none, false)
            | .ok path_to_dest =>
              if 2 ≤ path_to_dest.length then
                match env.findRoute new_destination h0 with
                | .error _ => (none, false)
                | .ok connecting =>
                  if 2 ≤ connecting.length then
                    let ptd :=
                      if path_to_dest.head? = some t.curPoint then path_to_dest.tail
                      else path_to_dest
                    (some (ptd ++ connecting ++ restq), true)
                  else (none, false)
              else (none, false)
        | .append =>
          match t.to_go with
          | [] => (some path, true)
          | q0 :: qs =>
            match env.findRoute ((q0 :: qs).getLastD q0) new_destination with
            | .error _ => (none, false)
            | .ok connecting =>
              if 2 ≤ connecting.length then
                (some ((q0 :: qs).dropLast ++ connecting), true)
              else (none, false)

/-- Tricycle.updatePath: applies the decision core to the vehicle. -/
def Tricycle.updatePath (env : Env) (t : Tricycle) (new_destination : Point) (priority : Priority) : Tricycle × Bool :=
  match Tricycle.updatePathCore env t new_destination priority with
  | (none, b) => (t, b)
  | (some tg, b) => ({ t with to_go := tg }, b)

/-- Tricycle.loadPassenger: refuses at capacity; otherwise records LOAD
and WAIT events, appends the loaded passenger, clears the outstanding
claim slot, resets the roam cycle counter and moves to SERVING when the
transition is valid. -/
def Tricycle.loadPassenger (t : Tricycle) (p : Passenger) (current_time : ℤ) : Tricycle × Passenger × Bool :=
  if t.capacity ≤ t.passengers.length then (t, p, false)
  else
    let loc := t.curPoint
    let p2 := p.onLoad t.id current_time loc
    let t2 : Tricycle :=
      { t with
        events := t.events ++ [⟨.LOAD, .str p.id, current_time, loc⟩, ⟨.WAIT, .int 100, current_time, loc⟩]
        passengers := t.passengers ++ [p2]
        enqueuedPassenger := none
        cycleCount := 0 }
    let t3 := if t2.status ≠ .SERVING then (t2.updateStatus .SERVING).1 else t2
    (t3, p2, true)

/-- Tricycle.scheduleNextPassenger: picks the next drop-off (first
passenger without a scheduler, otherwise the injected policy), then
issues a front-priority route update to its destination; on failure the
vehicle is returned without the SERVING update and no passenger is
reported. An empty passenger list cannot occur at the verified call
sites (the source would fault there). -/
def Tricycle.scheduleNextPassenger (env : Env) (t : Tricycle) : Tricycle × Option Passenger :=
  let chosen : Option Passenger :=
    match t.scheduler with
    | none => t.passengers.head?
    | some sched => some (sched t.curPoint t.passengers).2
  match chosen with
  | none => (t, none)
  | some p =>
    let u := Tricycle.updatePath env t p.dest .front
    if u.2 then ((u.1.updateStatus .SERVING).1, some p)
    else (u.1, none)

/-- The loop body of Tricycle.tryLoad over the map passenger registry.
The source first materialises the nearby list and then walks it; since
the radius test depends only on immutable source coordinates, filtering
is fused into the walk here. Passengers loaded are removed from the
registry (map.removePassenger); passengers reset stay with their updated
state; the rest are untouched. Returns the vehicle, the registry after
the walk and the loaded passengers in load order. -/
def Tricycle.tryLoadAux (env : Env) (time : ℤ) (cur : Point) : Tricycle → List Passenger → Tricycle × List Passenger × List Passenger
  | t, [] => (t, [], [])
  | t, p :: rest =>
    if ¬ (env.haversine cur p.src ≤ PICKUP_RADIUS_METERS) then
      let r := Tricycle.tryLoadAux env time cur t rest
      (r.1, p :: r.2.1, r.2.2)
    else if p.status ≠ .ENQUEUED then
      let r := Tricycle.tryLoadAux env time cur t rest
      (r.1, p :: r.2.1, r.2.2)
    else if p.claimed_by ≠ some t.id then
      let r := Tricycle.tryLoadAux env time cur t rest
      (r.1, p :: r.2.1, r.2.2)
    else if Map.isAtLocation env cur p.src then
      if t.capacity ≤ t.passengers.length then
        let p2 := p.onReset time p.src
        let r := Tricycle.tryLoadAux env time cur t rest
        (r.1, p2 :: r.2.1, r.2.2)
      else
        let lr := t.loadPassenger p time
        if lr.2.2 then
          let t3 : Tricycle := { lr.1 with events := lr.1.events ++ [⟨.WAIT, .int 200, time, lr.1.curPoint⟩] }
          let t4 := (Tricycle.scheduleNextPassenger env t3).1
          let t5 := (t4.updateStatus .SERVING).1
          let r := Tricycle.tryLoadAux env time cur t5 rest
          (r.1, r.2.1, lr.2.1 :: r.2.2)
        else
          let p2 := (lr.2.1).onReset time p.src
          let r := Tricycle.tryLoadAux env time cur lr.1 rest
          (r.1, p2 :: r.2.1, r.2.2)
    else
      let r := Tricycle.tryLoadAux env time cur t rest
      (r.1, p :: r.2.1, r.2.2)

/-- Tricycle.tryLoad: attempts to load enqueued passengers claimed by
this vehicle at their exact spawn location, walking the nearby slice of
the map registry. -/
def Tricycle.tryLoad (env : Env) (t : Tricycle) (mapPassengers : List Passenger) (current_time : ℤ) : Tricycle × List Passenger × List Passenger :=
  Tricycle.tryLoadAux env current_time t.curPoint t mapPassengers

/-- In-place mutation of one shared passenger object, rendered on the
value-level registry: the entry with the mutated id is replaced by its
new state (the simulator creates passengers with distinct ids). -/
def replaceById (ps : List Passenger) (pid : String) (newP : Passenger) : List Passenger :=
  ps.map (fun q => if q.id = pid then newP else q)

/-- The candidate list of Tricycle.enqueueNearbyPsgrBetter: WAITING
passengers within the active radius, paired with their distance and
stably sorted by it (Python list.sort with a distance key). -/
def Tricycle.candidates (env : Env) (t : Tricycle) (mapPassengers : List Passenger) : List (ℚ × Passenger) :=
  let cur := t.curPoint
  let radius := if t.hasPassenger then t.s_enqueue_radius_meters else t.enqueue_radius_meters
  let nearby := Map.getNearbyPassengers env mapPassengers cur radius
  let passenger_distances :=
    (nearby.filter (fun p => decide (p.status = .WAITING))).map (fun p => (env.haversine cur p.src, p))
  passenger_distances.insertionSort (fun a b => a.1 ≤ b.1)

/-- The claiming decision of Tricycle.enqueueNearbyPsgrBetter: an empty
vehicle claims any candidate; otherwise the candidate destination must be
en route to the current next waypoint, and a NoRoute signal from the
corridor test leaves the flag at its initial False. -/
def Tricycle.allow_enqueue (env : Env) (t : Tricycle) (p : Passenger) : Bool :=
  let empty := decide (t.passengers.length = 0)
  let dest_en_route : Bool :=
    match t.to_go with
    | [] => false
    | h0 :: _ =>
      match env.isEnRouteB t.curPoint h0 p.dest with
      | .ok b => b
      | .error _ => false
  empty || dest_en_route

/-- Tricycle.enqueueNearbyPsgrBetter: route-aware claiming. Skips when a
claim is outstanding or capacity is exhausted, takes the nearest WAITING
candidate, branches on allow_enqueue, and on a claim enqueues the
passenger, records the claim and the ENQUEUE event, requests the
ENQUEUING transition and issues a front-priority route update to the
pickup unless it is already queued; a failed update rolls the claim back
(onReset) and falls back to ROAMING or IDLE. Returns the vehicle, the
updated map registry and the passenger reported to the caller. -/
def Tricycle.enqueueNearbyPsgrBetter (env : Env) (t : Tricycle) (mapPassengers : List Passenger) (current_time : ℤ) : Tricycle × List Passenger × Option Passenger :=
  match t.enqueuedPassenger with
  | some _ => (t, mapPassengers, none)
  | none =>
    -- remaining_capacity = capacity - len(passengers) <= 0
    if t.capacity ≤ t.passengers.length then (t, mapPassengers, none)
    else
      match Tricycle.candidates env t mapPassengers with
      | [] => (t, mapPassengers, none)
      | (_, p) :: _ =>
        if Tricycle.allow_enqueue env t p then
          let p1 := p.onEnqueue t.id current_time p.src
          let t1 : Tricycle :=
            { t with
              enqueuedPassenger := some p1
              events := t.events ++ [⟨.ENQUEUE, .str p.id, current_time, p.src⟩] }
          let t2 := (t1.updateStatus .ENQUEUING).1
          if t2.to_go.any (fun pt => decide (pt.x = p.src.x ∧ pt.y = p.src.y)) then
            (t2, replaceById mapPassengers p.id p1, none)
          else
            let u := Tricycle.updatePath env t2 p.src .front
            if u.2 then (u.1, replaceById mapPassengers p.id p1, some p1)
            else
              let p2 := p1.onReset current_time p.src
              let t3 : Tricycle := { u.1 with enqueuedPassenger := none }
              let t4 :=
                if t3.isRoaming then (t3.updateStatus .ROAMING).1
                else (t3.updateStatus .IDLE).1
              (t4, replaceById mapPassengers p.id p2, none)
        else (t, mapPassengers, none)

/-- entities.Terminal -/
structure Terminal where
  location : Point
  capacity : ℕ
  queue : List Tricycle
  passengers : List Passenger

/-- The result dict built by Terminal.loadTricycle. -/
structure LoadResult where
  tricycle : Option Tricycle
  passengers : List Passenger
  wait : ℤ

/-- The while loop of Terminal.loadTricycle: pops passengers from the
front of the FIFO into the vehicle until the queue is exhausted or a load
fails. Returns the vehicle, the remaining FIFO and the loaded passengers
in order. -/
def Terminal.loadTricycleLoop (current_time : ℤ) : Tricycle → List Passenger → Tricycle × List Passenger × List Passenger
  | t, [] => (t, [], [])
  | t, p :: rest =>
    let lr := t.loadPassenger p current_time
    if lr.2.2 then
      let r := Terminal.loadTricycleLoop current_time lr.1 rest
      (r.1, r.2.1, lr.2.1 :: r.2.2)
    else (t, p :: rest, [])

/-- Terminal.loadTricycle: only processes when both queues are non-empty;
matches the head vehicle against the passenger FIFO and reports the
vehicle in the result exactly when it accepted at least one passenger. -/
def Terminal.loadTricycle (term : Terminal) (current_time : ℤ) : Terminal × Option LoadResult :=
  match term.queue, term.passengers with
  | [], _ => (term, none)
  | _, [] => (term, none)
  | topTrike :: qrest, p0 :: ps0 =>
    let r := Terminal.loadTricycleLoop current_time topTrike (p0 :: ps0)
    let res : LoadResult :=
      { tricycle := if r.2.2 ≠ [] then some r.1 else none
        passengers := r.2.2
        wait := 0 }
    ({ term with queue := r.1 :: qrest, passengers := r.2.1 }, some res)

/-- Terminal.popTricycle: releases the head vehicle back to active duty. -/
def Terminal.popTricycle (term : Terminal) : Terminal × Option Tricycle :=
  match term.queue with
  | [] => (term, none)
  | trike :: rest => ({ term with queue := rest }, some { trike with active := true })

/-- Simulator.run.process_passenger: marks a loaded passenger onboard and
stamps the pickup time (a no-op on passengers already through onLoad at
the same tick). -/
def process_passenger (current_time : ℤ) (p : Passenger) : Passenger :=
  { p with pickupTime := current_time, status := .ONBOARD }

/-- One iteration of the phase-4 terminal-matching loop of
Simulator.run.process_frame: run loadTricycle, stop when nothing was
loaded, otherwise process the loaded passengers and pop the head
vehicle. Returns the terminal, the released vehicle and the loaded
passengers. -/
def terminalRound (term : Terminal) (current_time : ℤ) : Terminal × Option Tricycle × List Passenger :=
  match Terminal.loadTricycle term current_time with
  | (term2, none) => (term2, none, [])
  | (term2, some res) =>
    if res.passengers = [] then (term2, none, [])
    else
      let processed := res.passengers.map (process_passenger current_time)
      let pr := term2.popTricycle
      (pr.1, pr.2, processed)

/-- Total path length of visiting the destinations of the passengers in
the given order, starting from the given position, under the abstract
distance oracle. -/
def routeLength (dist : Point → Point → ℚ) : Point → List Passenger → ℚ
  | _, [] => 0
  | src, p :: rest => dist src p.dest + routeLength dist p.dest rest

/-- First element of the list attaining the minimal key: on ties the
earlier element in enumeration order wins, matching the stable
first-found-wins tie-break the spec records for the brute-force
scheduler. -/
def selectMinBy {α : Type} (f : α → ℚ) : List α → Option α
  | [] => none
  | a :: l =>
    match selectMinBy f l with
    | none => some a
    | some b => if f b < f a then some b else some a

/-- Modelled from the spec: the module algos with sort_path_brute is not
among the provided sources (scenarios/real.py only imports and calls it).
Per spec section 4.5, it enumerates all permutations of the onboard set,
computes the total path length of visiting destinations in that order
starting from the current position, selects the permutation with minimum
total length, and reports the winning order together with the original
index of its first passenger. -/
def sort_path_brute (dist : Point → Point → ℚ) (src : Point) (passengers : List Passenger) : List Passenger × ℕ :=
  match selectMinBy (fun perm => routeLength dist src perm) passengers.permutations with
  | none => ([], 0)
  | some [] => ([], 0)
  | some (b0 :: bs) => (b0 :: bs, passengers.findIdx (fun q => decide (q = b0)))

/-- scenarios/real.py smart_scheduler on top of the spec-modelled
sort_path_brute: returns the original index and the passenger at it
(none renders the out-of-range fault that cannot occur for a non-empty
onboard list). -/
def smart_scheduler (dist : Point → Point → ℚ) (src : Point) (passengers : List Passenger) : Option (ℕ × Passenger) :=
  let r := sort_path_brute dist src passengers
  match passengers.get? r.2 with
  | some p => some (r.2, p)
  | none => none

/-- The claimed-by invariant of spec section 3: claimedBy is non-null iff
the status is ENQUEUED or ONBOARD. -/
def claimedInvariant (p : Passenger) : Prop :=
  p.claimed_by ≠ none ↔ (p.status = .ENQUEUED ∨ p.status = .ONBOARD)

instance (p : Passenger) : Decidable (claimedInvariant p) := by
  unfold claimedInvariant; infer_instance

/-- A concrete demonstration passenger used by counterexamples and
witnesses. -/
def demoPassenger : Passenger :=
  Passenger.init ("passenger_0") ⟨1, 2⟩ ⟨3, 4⟩ 0 (-1)

/-- The demonstration passenger after being enqueued, loaded and dropped
off by tricycle trike_0. -/
def demoDropped : Passenger :=
  ((demoPassenger.onEnqueue ("trike_0") 1 ⟨1, 2⟩).onLoad ("trike_0") 2 ⟨1, 2⟩).onDropoff 3 ⟨3, 4⟩

/-- The demonstration passenger already onboard some vehicle. -/
def demoOnboard : Passenger :=
  { demoPassenger with status := .ONBOARD }

/-- The demonstration passenger claimed by trike_0 and awaiting pickup. -/
def demoEnqueued : Passenger :=
  { demoPassenger with status := .ENQUEUED, claimed_by := some ("trike_0") }

/-- The transition table of spec section 4.2, written from the spec
sentence so the code behaviour can be compared against it. -/
def specTransitionTable : List (TricycleStatus × TricycleStatus) :=
  [(.IDLE, .SERVING), (.IDLE, .TERMINAL), (.IDLE, .ENQUEUING),
   (.SERVING, .RETURNING), (.SERVING, .ROAMING),
   (.TERMINAL, .SERVING), (.TERMINAL, .ENQUEUING),
   (.ROAMING, .SERVING), (.ROAMING, .ENQUEUING),
   (.RETURNING, .TERMINAL), (.RETURNING, .ENQUEUING),
   (.ENQUEUING, .SERVING), (.ENQUEUING, .ROAMING), (.ENQUEUING, .IDLE)]

/-- A concrete demonstration vehicle for witnesses. -/
def demoTrike : Tricycle :=
  { id := ("trike_0")
    capacity := 3
    active := true
    isRoaming := false
    scheduler := none
    cycleCount := 0
    maxCycles := 3
    s_enqueue_radius_meters := 50
    enqueue_radius_meters := 200
    passengers := []
    enqueuedPassenger := none
    status := .IDLE
    path := [⟨0, 0⟩]
    to_go := []
    events := [⟨.APPEAR, .nil, 0, ⟨0, 0⟩⟩] }

/-- An oracle bundle where every pair of points is 30 meters apart and
the planner and corridor test always signal NoRoute. -/
def envNoRoute : Env :=
  { findRoute := fun _ _ => .error ()
    haversine := fun _ _ => 30
    isEnRouteB := fun _ _ _ => .error () }

/-- An oracle bundle where every pair of points coincides (distance 0)
and the planner always signals NoRoute. -/
def envZero : Env :=
  { findRoute := fun _ _ => .error ()
    haversine := fun _ _ => 0
    isEnRouteB := fun _ _ _ => .error () }

/-- An oracle bundle whose planner answers every query with the
one-point route [start], shorter than the two waypoints a usable route
needs. -/
def envShort : Env :=
  { findRoute := fun a _ => .ok [a]
    haversine := fun _ _ => 30
    isEnRouteB := fun _ _ _ => .error () }

/-- The demonstration vehicle while holding an outstanding claim. -/
def demoClaimTrike : Tricycle :=
  { demoTrike with status := .ROAMING, isRoaming := true, enqueuedPassenger := some demoEnqueued }

/-- The demonstration vehicle with zero capacity (so any load request is
over capacity). -/
def demoFullTrike : Tricycle :=
  { demoTrike with capacity := 0, status := .ROAMING, isRoaming := true }

/-- The demonstration vehicle in ENQUEUING status, mid-claim. -/
def demoEnqTrike : Tricycle :=
  { demoTrike with status := .ENQUEUING, enqueuedPassenger := some demoEnqueued }

/-- The demonstration vehicle parked at a terminal. -/
def demoTerminalTrike : Tricycle :=
  { demoTrike with status := .TERMINAL, active := false }

/-- A demonstration terminal holding one parked vehicle and one waiting
passenger. -/
def demoTerminal : Terminal :=
  { location := ⟨0, 0⟩
    capacity := 100
    queue := [demoTerminalTrike]
    passengers := [demoPassenger] }

/-- The first guard of Tricycle.updatePath does not fire: either the
vehicle is not ENQUEUING, or the requested destination is at the claimed
passenger source. -/
def notDiverting (env : Env) (t : Tricycle) (dest : Point) : Prop :=
  t.status = .ENQUEUING →
    ∃ q, t.enqueuedPassenger = some q ∧ Map.isAtLocation env dest q.src = true

-- ### THEOREMS

section Claims

/-- updateStatus only ever rewrites the status field. -/
theorem updateStatus_frame (t : Tricycle) (s : TricycleStatus) :
    (t.updateStatus s).1 = { t with status := (t.updateStatus s).1.status } := by
  unfold Tricycle.updateStatus
  split <;> rfl

/-- updatePath only ever rewrites the to_go field. -/
theorem updatePath_frame (env : Env) (t : Tricycle) (d : Point) (pr : Priority) :
    (Tricycle.updatePath env t d pr).1 = { t with to_go := (Tricycle.updatePath env t d pr).1.to_go } := by
  unfold Tricycle.updatePath
  rcases Tricycle.updatePathCore env t d pr with ⟨_ | tg, b⟩ <;> rfl

/-- loadPassenger at or over capacity is a rejected no-op. -/
theorem loadPassenger_fail (t : Tricycle) (p : Passenger) (time : ℤ)
    (h : t.capacity ≤ t.passengers.length) :
    t.loadPassenger p time = (t, p, false) := by
  unfold Tricycle.loadPassenger
  rw [if_pos h]

/-- loadPassenger below capacity succeeds: its exact effect on the
vehicle record, up to the conditional SERVING transition. -/
theorem loadPassenger_succ (t : Tricycle) (p : Passenger) (time : ℤ)
    (h : t.passengers.length < t.capacity) :
    ∃ st : TricycleStatus,
      t.loadPassenger p time =
        ({ t with
            events := t.events ++
              [⟨.LOAD, .str p.id, time, t.curPoint⟩, ⟨.WAIT, .int 100, time, t.curPoint⟩]
            passengers := t.passengers ++ [p.onLoad t.id time t.curPoint]
            enqueuedPassenger := none
            cycleCount := 0
            status := st },
          p.onLoad t.id time t.curPoint, true) := by
  unfold Tricycle.loadPassenger
  rw [if_neg (not_le.mpr h)]
  dsimp only
  split
  · unfold Tricycle.updateStatus
    split
    · exact ⟨.SERVING, rfl⟩
    · exact ⟨t.status, rfl⟩
  · exact ⟨t.status, rfl⟩

/-- updateStatus keeps the passenger list. -/
theorem updateStatus_passengers (t : Tricycle) (s : TricycleStatus) :
    (t.updateStatus s).1.passengers = t.passengers := by
  rw [updateStatus_frame]

/-- updateStatus keeps the capacity. -/
theorem updateStatus_capacity (t : Tricycle) (s : TricycleStatus) :
    (t.updateStatus s).1.capacity = t.capacity := by
  rw [updateStatus_frame]

/-- updatePath keeps the passenger list. -/
theorem updatePath_passengers (env : Env) (t : Tricycle) (d : Point) (pr : Priority) :
    (Tricycle.updatePath env t d pr).1.passengers = t.passengers := by
  rw [updatePath_frame]

/-- updatePath keeps the capacity. -/
theorem updatePath_capacity (env : Env) (t : Tricycle) (d : Point) (pr : Priority) :
    (Tricycle.updatePath env t d pr).1.capacity = t.capacity := by
  rw [updatePath_frame]

/-- scheduleNextPassenger keeps the passenger list. -/
theorem scheduleNext_passengers (env : Env) (t : Tricycle) :
    (Tricycle.scheduleNextPassenger env t).1.passengers = t.passengers := by
  unfold Tricycle.scheduleNextPassenger
  rcases t.scheduler with _ | sched
  · rcases hh : t.passengers.head? with _ | p
    · simp [hh]
    · simp only [hh]
      split
      · rw [updateStatus_passengers, updatePath_passengers]
      · rw [updatePath_passengers]
  · simp only
    split
    · rw [updateStatus_passengers, updatePath_passengers]
    · rw [updatePath_passengers]

/-- scheduleNextPassenger keeps the capacity. -/
theorem scheduleNext_capacity (env : Env) (t : Tricycle) :
    (Tricycle.scheduleNextPassenger env t).1.capacity = t.capacity := by
  unfold Tricycle.scheduleNextPassenger
  rcases t.scheduler with _ | sched
  · rcases hh : t.passengers.head? with _ | p
    · simp [hh]
    · simp only [hh]
      split
      · rw [updateStatus_capacity, updatePath_capacity]
      · rw [updatePath_capacity]
  · simp only
    split
    · rw [updateStatus_capacity, updatePath_capacity]
    · rw [updatePath_capacity]

/-- Walking the registry in tryLoad preserves the capacity bound on the
vehicle passenger list. -/
theorem tryLoadAux_capacity (env : Env) (time : ℤ) (cur : Point) :
    ∀ (ps : List Passenger) (t : Tricycle), t.passengers.length ≤ t.capacity →
      (Tricycle.tryLoadAux env time cur t ps).1.passengers.length ≤ t.capacity ∧
      (Tricycle.tryLoadAux env time cur t ps).1.capacity = t.capacity
  | [], t, h => ⟨h, rfl⟩
  | p :: rest, t, h => by
    unfold Tricycle.tryLoadAux
    by_cases c1 : ¬(env.haversine cur p.src ≤ PICKUP_RADIUS_METERS)
    · rw [if_pos c1]
      exact tryLoadAux_capacity env time cur rest t h
    · rw [if_neg c1]
      by_cases c2 : p.status ≠ PassengerStatus.ENQUEUED
      · rw [if_pos c2]
        exact tryLoadAux_capacity env time cur rest t h
      · rw [if_neg c2]
        by_cases c3 : p.claimed_by ≠ some t.id
        · rw [if_pos c3]
          exact tryLoadAux_capacity env time cur rest t h
        · rw [if_neg c3]
          by_cases c4 : Map.isAtLocation env cur p.src = true
          · rw [if_pos c4]
            by_cases c5 : t.capacity ≤ t.passengers.length
            · rw [if_pos c5]
              exact tryLoadAux_capacity env time cur rest t h
            · rw [if_neg c5]
              have hcap : t.passengers.length < t.capacity := not_le.mp c5
              obtain ⟨st, hs⟩ := loadPassenger_succ t p time hcap
              have key : ∀ u : Tricycle,
                  u.passengers = t.passengers ++ [p.onLoad t.id time t.curPoint] →
                  u.capacity = t.capacity →
                  (Tricycle.tryLoadAux env time cur u rest).1.passengers.length ≤ t.capacity ∧
                  (Tricycle.tryLoadAux env time cur u rest).1.capacity = t.capacity := by
                intro u hup huc
                have h1 : u.passengers.length ≤ u.capacity := by
                  rw [hup, huc]
                  simp only [List.length_append, List.length_cons, List.length_nil]
                  omega
                obtain ⟨a, b⟩ := tryLoadAux_capacity env time cur rest u h1
                rw [huc] at a b
                exact ⟨a, b⟩
              rw [hs]
              dsimp only
              exact key _
                (by rw [updateStatus_passengers, scheduleNext_passengers])
                (by rw [updateStatus_capacity, scheduleNext_capacity])
          · rw [if_neg c4]
            exact tryLoadAux_capacity env time cur rest t h

/-- Exact characterisation of the Terminal.loadTricycle while loop: it
loads the longest loadable prefix of the FIFO, whose length is the free
capacity capped by the queue length, appends the loaded passengers to
the vehicle in FIFO order and leaves identity, capacity, position and
active flag untouched. -/
theorem loadTricycleLoop_spec (time : ℤ) :
    ∀ (ps : List Passenger) (t : Tricycle),
      (Terminal.loadTricycleLoop time t ps).2.1 =
        ps.drop (min (t.capacity - t.passengers.length) ps.length) ∧
      (Terminal.loadTricycleLoop time t ps).2.2 =
        (ps.take (min (t.capacity - t.passengers.length) ps.length)).map
          (fun q => q.onLoad t.id time t.curPoint) ∧
      (Terminal.loadTricycleLoop time t ps).1.passengers =
        t.passengers ++ (Terminal.loadTricycleLoop time t ps).2.2 ∧
      (Terminal.loadTricycleLoop time t ps).1.id = t.id ∧
      (Terminal.loadTricycleLoop time t ps).1.capacity = t.capacity ∧
      (Terminal.loadTricycleLoop time t ps).1.path = t.path ∧
      (Terminal.loadTricycleLoop time t ps).1.active = t.active
  | [], t => by
    simp [Terminal.loadTricycleLoop]
  | p :: rest, t => by
    unfold Terminal.loadTricycleLoop
    by_cases c : t.capacity ≤ t.passengers.length
    · have hz : t.capacity - t.passengers.length = 0 := Nat.sub_eq_zero_of_le c
      rw [loadPassenger_fail t p time c]
      simp [hz]
    · have hcap : t.passengers.length < t.capacity := not_le.mp c
      obtain ⟨st, hs⟩ := loadPassenger_succ t p time hcap
      have key : ∀ u : Tricycle,
          u.passengers = t.passengers ++ [p.onLoad t.id time t.curPoint] →
          u.id = t.id → u.capacity = t.capacity → u.path = t.path → u.active = t.active →
          (Terminal.loadTricycleLoop time u rest).2.1 =
            (p :: rest).drop (min (t.capacity - t.passengers.length) (p :: rest).length) ∧
          p.onLoad t.id time t.curPoint :: (Terminal.loadTricycleLoop time u rest).2.2 =
            ((p :: rest).take (min (t.capacity - t.passengers.length) (p :: rest).length)).map
              (fun q => q.onLoad t.id time t.curPoint) ∧
          (Terminal.loadTricycleLoop time u rest).1.passengers =
            t.passengers ++
              p.onLoad t.id time t.curPoint :: (Terminal.loadTricycleLoop time u rest).2.2 ∧
          (Terminal.loadTricycleLoop time u rest).1.id = t.id ∧
          (Terminal.loadTricycleLoop time u rest).1.capacity = t.capacity ∧
          (Terminal.loadTricycleLoop time u rest).1.path = t.path ∧
          (Terminal.loadTricycleLoop time u rest).1.active = t.active := by
        intro u hup hid hcapu hpath hact
        obtain ⟨i1, i2, i3, i4, i5, i6, i7⟩ := loadTricycleLoop_spec time rest u
        have hlen : u.passengers.length = t.passengers.length + 1 := by
          rw [hup]; simp
        have hcp : Tricycle.curPoint u = Tricycle.curPoint t := by
          unfold Tricycle.curPoint; rw [hpath]
        have hmin : min (t.capacity - t.passengers.length) (p :: rest).length
            = min (u.capacity - u.passengers.length) rest.length + 1 := by
          rw [hcapu, hlen]
          simp only [List.length_cons]
          omega
        refine ⟨?_, ?_, ?_, ?_, ?_, ?_, ?_⟩
        · rw [hmin, List.drop_succ_cons, i1]
        · rw [hmin, List.take_succ_cons, List.map_cons, i2, hid, hcp]
        · rw [i3, i2, hup, hid, hcp]
          simp [List.append_assoc]
        · rw [i4, hid]
        · rw [i5, hcapu]
        · rw [i6, hpath]
        · rw [i7, hact]
      rw [hs]
      dsimp only
      exact key _ rfl rfl rfl rfl rfl

/-- Claim C2: loadPassenger rejects without change at or over capacity,
its success keeps the list within capacity, and the two loaders built on
it (the terminal matching loop and tryLoad) preserve the bound, so the
passenger list never exceeds the capacity. -/
theorem C2_thm (env : Env) (t : Tricycle) (p : Passenger) (time : ℤ) (ps qs : List Passenger)
    (h : t.passengers.length ≤ t.capacity) :
    (t.capacity ≤ t.passengers.length → t.loadPassenger p time = (t, p, false)) ∧
    (t.loadPassenger p time).1.passengers.length ≤ t.capacity ∧
    (Terminal.loadTricycleLoop time t qs).1.passengers.length ≤ t.capacity ∧
    (Tricycle.tryLoad env t ps time).1.passengers.length ≤ t.capacity := by
  refine ⟨fun hc => loadPassenger_fail t p time hc, ?_, ?_, ?_⟩
  · by_cases hc : t.capacity ≤ t.passengers.length
    · rw [loadPassenger_fail t p time hc]
      exact h
    · obtain ⟨st, hs⟩ := loadPassenger_succ t p time (not_le.mp hc)
      rw [hs]
      dsimp only
      simp only [List.length_append, List.length_cons, List.length_nil]
      omega
  · obtain ⟨_, i2, i3, _, _, _, _⟩ := loadTricycleLoop_spec time qs t
    rw [i3, i2]
    simp only [List.length_append, List.length_map, List.length_take]
    omega
  · exact (tryLoadAux_capacity env time t.curPoint ps t h).1

/-- Claim C2 witness: the bound holds on the demonstration vehicle for a
direct load, an empty terminal loop and an empty tryLoad walk. -/
theorem C2_thm_witness :
    (demoTrike.capacity ≤ demoTrike.passengers.length →
      demoTrike.loadPassenger demoPassenger 0 = (demoTrike, demoPassenger, false)) ∧
    (demoTrike.loadPassenger demoPassenger 0).1.passengers.length ≤ demoTrike.capacity ∧
    (Terminal.loadTricycleLoop 0 demoTrike []).1.passengers.length ≤ demoTrike.capacity ∧
    (Tricycle.tryLoad envZero demoTrike [] 0).1.passengers.length ≤ demoTrike.capacity :=
  C2_thm envZero demoTrike demoPassenger 0 [] [] (by decide)

/-- Claim C10: a successful loadPassenger always nulls the
enqueuedPassenger slot and zeroes cycleCount, whatever passenger was
loaded and whatever claim was recorded; the only events appended are the
LOAD and WAIT records (in particular no RESET), so the claimed passenger
sitting in the registry is untouched and keeps its ENQUEUED status. -/
theorem C10_thm (t : Tricycle) (p q : Passenger) (time : ℤ)
    (_hq : t.enqueuedPassenger = some q)
    (h : (t.loadPassenger p time).2.2 = true) :
    (t.loadPassenger p time).1.enqueuedPassenger = none ∧
    (t.loadPassenger p time).1.cycleCount = 0 ∧
    (t.loadPassenger p time).2.1 = p.onLoad t.id time t.curPoint ∧
    (t.loadPassenger p time).1.events =
      t.events ++ [⟨.LOAD, .str p.id, time, t.curPoint⟩, ⟨.WAIT, .int 100, time, t.curPoint⟩] := by
  by_cases hc : t.capacity ≤ t.passengers.length
  · rw [loadPassenger_fail t p time hc] at h
    simp at h
  · obtain ⟨st, hs⟩ := loadPassenger_succ t p time (not_le.mp hc)
    rw [hs]
    exact ⟨rfl, rfl, rfl, rfl⟩

/-- Claim C10 witness: the demonstration vehicle claims demoEnqueued but
successfully loads the different passenger demoOnboard; the claim slot
is dropped and the cycle count reset all the same. -/
theorem C10_thm_witness :
    (demoClaimTrike.loadPassenger demoOnboard 7).1.enqueuedPassenger = none ∧
    (demoClaimTrike.loadPassenger demoOnboard 7).1.cycleCount = 0 ∧
    (demoClaimTrike.loadPassenger demoOnboard 7).2.1 =
      demoOnboard.onLoad demoClaimTrike.id 7 demoClaimTrike.curPoint ∧
    (demoClaimTrike.loadPassenger demoOnboard 7).1.events =
      demoClaimTrike.events ++
        [⟨.LOAD, .str demoOnboard.id, 7, demoClaimTrike.curPoint⟩,
         ⟨.WAIT, .int 100, 7, demoClaimTrike.curPoint⟩] :=
  C10_thm demoClaimTrike demoOnboard demoEnqueued 7 rfl (by decide)

/-- A tryLoad walk on a vehicle at capacity loads nobody and leaves the
vehicle untouched; every nearby passenger enqueued to this vehicle at
its exact location is reset, all others are untouched. -/
theorem tryLoadAux_atCapacity (env : Env) (time : ℤ) (cur : Point) (t : Tricycle)
    (h : t.capacity ≤ t.passengers.length) :
    ∀ ps : List Passenger,
      Tricycle.tryLoadAux env time cur t ps =
        (t,
         ps.map (fun p =>
           if env.haversine cur p.src ≤ PICKUP_RADIUS_METERS ∧ p.status = .ENQUEUED ∧
              p.claimed_by = some t.id ∧ Map.isAtLocation env cur p.src = true
           then p.onReset time p.src else p),
         [])
  | [] => by
    simp [Tricycle.tryLoadAux]
  | p :: rest => by
    unfold Tricycle.tryLoadAux
    have ih := tryLoadAux_atCapacity env time cur t h rest
    by_cases c1 : ¬(env.haversine cur p.src ≤ PICKUP_RADIUS_METERS)
    · rw [if_pos c1, ih]
      simp [c1]
    · rw [if_neg c1]
      push_neg at c1
      by_cases c2 : p.status ≠ PassengerStatus.ENQUEUED
      · rw [if_pos c2, ih]
        simp [c1, c2]
      · rw [if_neg c2]
        push_neg at c2
        by_cases c3 : p.claimed_by ≠ some t.id
        · rw [if_pos c3, ih]
          simp [c1, c2, c3]
        · rw [if_neg c3]
          push_neg at c3
          by_cases c4 : Map.isAtLocation env cur p.src = true
          · rw [if_pos c4, if_pos h, ih]
            simp [c1, c2, c3, c4]
          · rw [if_neg c4, ih]
            simp [c4]

/-- Claim C6: at or over capacity, tryLoad loads no one and leaves the
vehicle (in particular its passenger list) unchanged; each nearby
passenger that is ENQUEUED, claimed by this vehicle and exactly at its
spawn location is reset instead of loaded: back to WAITING, claim slot
nulled and exactly one RESET event appended; all other registry entries
are untouched. -/
theorem C6_thm (env : Env) (t : Tricycle) (ps : List Passenger) (time : ℤ)
    (h : t.capacity ≤ t.passengers.length) :
    (Tricycle.tryLoad env t ps time).1 = t ∧
    (Tricycle.tryLoad env t ps time).2.2 = [] ∧
    (Tricycle.tryLoad env t ps time).2.1 =
      ps.map (fun p =>
        if env.haversine t.curPoint p.src ≤ PICKUP_RADIUS_METERS ∧ p.status = .ENQUEUED ∧
           p.claimed_by = some t.id ∧ Map.isAtLocation env t.curPoint p.src = true
        then p.onReset time p.src else p) ∧
    (∀ p : Passenger,
      (p.onReset time p.src).status = .WAITING ∧
      (p.onReset time p.src).claimed_by = none ∧
      (p.onReset time p.src).events =
        p.events ++ [⟨.RESET, EventData.ofOpt p.claimed_by, time, p.src⟩]) := by
  have hh := tryLoadAux_atCapacity env time t.curPoint t h ps
  unfold Tricycle.tryLoad
  rw [hh]
  exact ⟨rfl, rfl, rfl, fun p => ⟨rfl, rfl, rfl⟩⟩

/-- Claim C6 witness: a zero-capacity vehicle standing on its claimed
passenger resets the claim instead of loading. -/
theorem C6_thm_witness :
    (Tricycle.tryLoad envZero demoFullTrike [demoEnqueued] 11).1 = demoFullTrike ∧
    (Tricycle.tryLoad envZero demoFullTrike [demoEnqueued] 11).2.2 = [] ∧
    (Tricycle.tryLoad envZero demoFullTrike [demoEnqueued] 11).2.1 =
      [demoEnqueued].map (fun p =>
        if envZero.haversine demoFullTrike.curPoint p.src ≤ PICKUP_RADIUS_METERS ∧
           p.status = .ENQUEUED ∧ p.claimed_by = some demoFullTrike.id ∧
           Map.isAtLocation envZero demoFullTrike.curPoint p.src = true
        then p.onReset 11 p.src else p) ∧
    (∀ p : Passenger,
      (p.onReset 11 p.src).status = .WAITING ∧
      (p.onReset 11 p.src).claimed_by = none ∧
      (p.onReset 11 p.src).events =
        p.events ++ [⟨.RESET, EventData.ofOpt p.claimed_by, 11, p.src⟩]) :=
  C6_thm envZero demoFullTrike [demoEnqueued] 11 (by decide)

/-- Claim C7: updatePath rejects (returns False with the vehicle, hence
the to-go queue, unchanged) when the vehicle is ENQUEUING and the
destination is not at the claimed passenger source (also when no claim
is recorded), when the planner signals NoRoute, or when the returned
route has fewer than 2 waypoints; and when the vehicle is already within
tolerance of the destination (and not blocked by the ENQUEUING guard,
which the source checks first) it returns True with no queue change. -/
theorem C7_thm (env : Env) (t : Tricycle) (dest : Point) (q : Passenger) (pr : Priority) :
    (t.status = .ENQUEUING → t.enqueuedPassenger = some q →
      Map.isAtLocation env dest q.src = false →
      Tricycle.updatePath env t dest pr = (t, false)) ∧
    (t.status = .ENQUEUING → t.enqueuedPassenger = none →
      Tricycle.updatePath env t dest pr = (t, false)) ∧
    (notDiverting env t dest → Map.isAtLocation env t.curPoint dest = true →
      Tricycle.updatePath env t dest pr = (t, true)) ∧
    (notDiverting env t dest → Map.isAtLocation env t.curPoint dest = false →
      env.findRoute t.curPoint dest = .error () →
      Tricycle.updatePath env t dest pr = (t, false)) ∧
    (∀ route : List Point, notDiverting env t dest →
      Map.isAtLocation env t.curPoint dest = false →
      env.findRoute t.curPoint dest = .ok route → route.length < 2 →
      Tricycle.updatePath env t dest pr = (t, false)) := by
  have lift : ∀ b : Bool, Tricycle.updatePathCore env t dest pr = (none, b) →
      Tricycle.updatePath env t dest pr = (t, b) := by
    intro b hb
    unfold Tricycle.updatePath
    rw [hb]
  have hguardOf : notDiverting env t dest →
      ¬(t.status = .ENQUEUING ∧ t.updatePathBlocked env dest = true) := by
    rintro hnd ⟨hs, hbl⟩
    obtain ⟨q2, hq2, hat2⟩ := hnd hs
    unfold Tricycle.updatePathBlocked at hbl
    rw [hq2] at hbl
    simp [hat2] at hbl
  refine ⟨?_, ?_, ?_, ?_, ?_⟩
  · intro hs he hl
    refine lift false ?_
    have hbl : t.updatePathBlocked env dest = true := by
      unfold Tricycle.updatePathBlocked
      rw [he]
      dsimp only
      rw [hl]
      rfl
    unfold Tricycle.updatePathCore
    rw [if_pos ⟨hs, hbl⟩]
  · intro hs he
    refine lift false ?_
    have hbl : t.updatePathBlocked env dest = true := by
      unfold Tricycle.updatePathBlocked
      rw [he]
    unfold Tricycle.updatePathCore
    rw [if_pos ⟨hs, hbl⟩]
  · intro hnd hat
    refine lift true ?_
    unfold Tricycle.updatePathCore
    rw [if_neg (hguardOf hnd), hat]
    rfl
  · intro hnd hat hroute
    refine lift false ?_
    unfold Tricycle.updatePathCore
    rw [if_neg (hguardOf hnd), hat, hroute]
    rfl
  · intro route hnd hat hroute hlen
    refine lift false ?_
    unfold Tricycle.updatePathCore
    rw [if_neg (hguardOf hnd), hat, hroute]
    by_cases hz : route.length = 0
    · simp [hz]
    · simp [hz, hlen]

/-- Claim C7 witness: the four rejection and acceptance cases at
concrete inputs: a mid-claim diversion is rejected, an
already-at-destination request succeeds with no change, a NoRoute answer
is rejected, and a one-waypoint route is rejected. -/
theorem C7_thm_witness :
    Tricycle.updatePath envNoRoute demoEnqTrike ⟨9, 9⟩ .replace = (demoEnqTrike, false) ∧
    Tricycle.updatePath envZero demoTrike ⟨9, 9⟩ .front = (demoTrike, true) ∧
    Tricycle.updatePath envNoRoute demoTrike ⟨9, 9⟩ .front = (demoTrike, false) ∧
    Tricycle.updatePath envShort demoTrike ⟨9, 9⟩ .append = (demoTrike, false) :=
  ⟨(C7_thm envNoRoute demoEnqTrike ⟨9, 9⟩ demoEnqueued .replace).1 rfl rfl (by decide),
   (C7_thm envZero demoTrike ⟨9, 9⟩ demoPassenger .front).2.2.1
     (fun hs => absurd hs (by decide)) (by decide),
   (C7_thm envNoRoute demoTrike ⟨9, 9⟩ demoPassenger .front).2.2.2.1
     (fun hs => absurd hs (by decide)) (by decide) rfl,
   (C7_thm envShort demoTrike ⟨9, 9⟩ demoPassenger .append).2.2.2.2
     [demoTrike.curPoint] (fun hs => absurd hs (by decide)) (by decide) rfl (by decide)⟩

/-- Claim C9: one phase-4 matching round on a terminal with a head
vehicle and a non-empty passenger FIFO loads exactly the longest
loadable prefix of the FIFO (free capacity capped by queue length) into
the head vehicle in FIFO order, stopping at the first failed load;
every loaded passenger is removed from the FIFO, and the head vehicle is
popped (active again, holding the loaded passengers) iff it accepted at
least one passenger. -/
theorem C9_thm (term : Terminal) (time : ℤ) (tk : Tricycle) (qrest : List Tricycle)
    (ps : List Passenger)
    (hq : term.queue = tk :: qrest) (hp : term.passengers = ps) (hne : ps ≠ []) :
    (terminalRound term time).1.passengers =
      ps.drop (min (tk.capacity - tk.passengers.length) ps.length) ∧
    (terminalRound term time).2.2 =
      (ps.take (min (tk.capacity - tk.passengers.length) ps.length)).map
        (fun p => p.onLoad tk.id time tk.curPoint) ∧
    (0 < min (tk.capacity - tk.passengers.length) ps.length →
      ∃ tk2, (terminalRound term time).2.1 = some tk2 ∧ tk2.active = true ∧
        tk2.passengers = tk.passengers ++ (terminalRound term time).2.2 ∧
        (terminalRound term time).1.queue = qrest) ∧
    (min (tk.capacity - tk.passengers.length) ps.length = 0 →
      (terminalRound term time).2.1 = none ∧
      (terminalRound term time).1.queue = term.queue ∧
      (terminalRound term time).1.passengers = ps) := by
  obtain ⟨p0, ps0, rfl⟩ : ∃ p0 ps0, ps = p0 :: ps0 := by
    cases ps with
    | nil => exact absurd rfl hne
    | cons a l => exact ⟨a, l, rfl⟩
  obtain ⟨i1, i2, i3, i4, i5, i6, i7⟩ := loadTricycleLoop_spec time (p0 :: ps0) tk
  unfold terminalRound Terminal.loadTricycle
  rw [hq, hp]
  dsimp only
  by_cases hk0 : min (tk.capacity - tk.passengers.length) (p0 :: ps0).length = 0
  · have hcap0 : tk.capacity ≤ tk.passengers.length := by
      simp only [List.length_cons] at hk0
      omega
    have hloop : Terminal.loadTricycleLoop time tk (p0 :: ps0) = (tk, p0 :: ps0, []) := by
      unfold Terminal.loadTricycleLoop
      rw [loadPassenger_fail tk p0 time hcap0]
      rfl
    rw [hloop]
    dsimp only
    rw [if_pos rfl]
    refine ⟨?_, ?_, ?_, ?_⟩
    · rw [hk0]
      rfl
    · rw [hk0]
      rfl
    · intro hpos
      omega
    · intro _
      exact ⟨rfl, rfl, rfl⟩
  · have hpos : 0 < min (tk.capacity - tk.passengers.length) (p0 :: ps0).length :=
      Nat.pos_of_ne_zero hk0
    have hldne : (Terminal.loadTricycleLoop time tk (p0 :: ps0)).2.2 ≠ [] := by
      rw [i2]
      intro hnil
      have hlen := congrArg List.length hnil
      simp only [List.length_map, List.length_take, List.length_nil] at hlen
      omega
    rw [if_neg hldne]
    unfold Terminal.popTricycle
    dsimp only
    have hmapid :
        (Terminal.loadTricycleLoop time tk (p0 :: ps0)).2.2.map (process_passenger time) =
          (Terminal.loadTricycleLoop time tk (p0 :: ps0)).2.2 := by
      rw [i2, List.map_map]
      have hfun : process_passenger time ∘ (fun q : Passenger => q.onLoad tk.id time tk.curPoint)
          = fun q : Passenger => q.onLoad tk.id time tk.curPoint := funext fun q => rfl
      rw [hfun]
    refine ⟨?_, ?_, ?_, ?_⟩
    · rw [i1]
    · rw [hmapid, i2]
    · intro _
      refine ⟨_, rfl, rfl, ?_, rfl⟩
      rw [hmapid, i3]
    · intro hz
      omega

/-- Claim C9 witness: the demonstration terminal (one parked empty
vehicle of capacity 3, one waiting passenger) matches the passenger into
the vehicle and releases the vehicle. -/
theorem C9_thm_witness :
    (terminalRound demoTerminal 4).1.passengers =
      [demoPassenger].drop
        (min (demoTerminalTrike.capacity - demoTerminalTrike.passengers.length)
          [demoPassenger].length) ∧
    (terminalRound demoTerminal 4).2.2 =
      ([demoPassenger].take
        (min (demoTerminalTrike.capacity - demoTerminalTrike.passengers.length)
          [demoPassenger].length)).map
        (fun p => p.onLoad demoTerminalTrike.id 4 demoTerminalTrike.curPoint) ∧
    (0 < min (demoTerminalTrike.capacity - demoTerminalTrike.passengers.length)
        [demoPassenger].length →
      ∃ tk2, (terminalRound demoTerminal 4).2.1 = some tk2 ∧ tk2.active = true ∧
        tk2.passengers = demoTerminalTrike.passengers ++ (terminalRound demoTerminal 4).2.2 ∧
        (terminalRound demoTerminal 4).1.queue = []) ∧
    (min (demoTerminalTrike.capacity - demoTerminalTrike.passengers.length)
        [demoPassenger].length = 0 →
      (terminalRound demoTerminal 4).2.1 = none ∧
      (terminalRound demoTerminal 4).1.queue = demoTerminal.queue ∧
      (terminalRound demoTerminal 4).1.passengers = [demoPassenger]) :=
  C9_thm demoTerminal 4 demoTerminalTrike [] [demoPassenger] rfl rfl (by simp)

/-- Claim C5: under the route-aware policy, once the nearest WAITING
candidate is determined (head of the sorted candidate list) and the
vehicle is free to claim (no outstanding claim, spare capacity), an
empty vehicle always claims; a vehicle with onboard passengers claims
iff the corridor test on the route from its position to the head of its
to-go queue answers True, and a NoRoute signal from that test means no
claim; when the decision is negative nothing changes, and when it is
positive the candidate is enqueued (an ENQUEUE event by this vehicle is
appended to its log, possibly followed by a rollback RESET). -/
theorem C5_thm (env : Env) (t : Tricycle) (ps : List Passenger) (time : ℤ) (d : ℚ)
    (p : Passenger) (rest : List (ℚ × Passenger))
    (h1 : t.enqueuedPassenger = none)
    (h2 : t.passengers.length < t.capacity)
    (h3 : Tricycle.candidates env t ps = (d, p) :: rest) :
    (t.passengers = [] → Tricycle.allow_enqueue env t p = true) ∧
    (t.passengers ≠ [] →
      (Tricycle.allow_enqueue env t p = true ↔
        ∃ h0, t.to_go.head? = some h0 ∧ env.isEnRouteB t.curPoint h0 p.dest = .ok true)) ∧
    (∀ h0 : Point, t.passengers ≠ [] → t.to_go.head? = some h0 →
      env.isEnRouteB t.curPoint h0 p.dest = .error () →
      Tricycle.allow_enqueue env t p = false) ∧
    (Tricycle.allow_enqueue env t p = false →
      Tricycle.enqueueNearbyPsgrBetter env t ps time = (t, ps, none)) ∧
    (Tricycle.allow_enqueue env t p = true →
      ∃ pf evs,
        (Tricycle.enqueueNearbyPsgrBetter env t ps time).2.1 = replaceById ps p.id pf ∧
        pf.events = p.events ++ ⟨.ENQUEUE, .str t.id, time, p.src⟩ :: evs) := by
  refine ⟨?_, ?_, ?_, ?_, ?_⟩
  · intro hemp
    simp [Tricycle.allow_enqueue, hemp]
  · intro hne
    have hlen : ¬(t.passengers.length = 0) := fun h => hne (List.length_eq_zero.mp h)
    unfold Tricycle.allow_enqueue
    cases hg : t.to_go with
    | nil => simp [hlen, hg]
    | cons h0 tl =>
      cases hr : env.isEnRouteB t.curPoint h0 p.dest with
      | ok b => cases b <;> simp [hlen, hg, hr]
      | error e => cases e; simp [hlen, hg, hr]
  · intro h0 hne hhead herr
    have hlen : ¬(t.passengers.length = 0) := fun h => hne (List.length_eq_zero.mp h)
    cases hg : t.to_go with
    | nil => rw [hg] at hhead; simp at hhead
    | cons a tl =>
      rw [hg] at hhead
      simp at hhead
      subst hhead
      unfold Tricycle.allow_enqueue
      simp [hlen, hg, herr]
  · intro hall
    have hn : ¬(Tricycle.allow_enqueue env t p = true) := by
      rw [hall]; simp
    unfold Tricycle.enqueueNearbyPsgrBetter
    rw [h1]
    dsimp only
    rw [if_neg (not_le.mpr h2), h3]
    dsimp only
    rw [if_neg hn]
  · intro hall
    unfold Tricycle.enqueueNearbyPsgrBetter
    rw [h1]
    dsimp only
    rw [if_neg (not_le.mpr h2), h3]
    dsimp only
    rw [if_pos hall]
    split
    · exact ⟨_, [], rfl, rfl⟩
    · split
      · exact ⟨_, [], rfl, rfl⟩
      · refine ⟨_, [⟨.RESET, EventData.ofOpt (some t.id), time, p.src⟩], rfl, ?_⟩
        simp [Passenger.onEnqueue, Passenger.onReset]

/-- Claim C5 witness: an empty demonstration vehicle next to a WAITING
passenger claims it even though the corridor oracle would signal
NoRoute; the claim is recorded by an ENQUEUE event on the passenger. -/
theorem C5_thm_witness :
    (demoTrike.passengers = [] → Tricycle.allow_enqueue envZero demoTrike demoPassenger = true) ∧
    (demoTrike.passengers ≠ [] →
      (Tricycle.allow_enqueue envZero demoTrike demoPassenger = true ↔
        ∃ h0, demoTrike.to_go.head? = some h0 ∧
          envZero.isEnRouteB demoTrike.curPoint h0 demoPassenger.dest = .ok true)) ∧
    (∀ h0 : Point, demoTrike.passengers ≠ [] → demoTrike.to_go.head? = some h0 →
      envZero.isEnRouteB demoTrike.curPoint h0 demoPassenger.dest = .error () →
      Tricycle.allow_enqueue envZero demoTrike demoPassenger = false) ∧
    (Tricycle.allow_enqueue envZero demoTrike demoPassenger = false →
      Tricycle.enqueueNearbyPsgrBetter envZero demoTrike [demoPassenger] 9 =
        (demoTrike, [demoPassenger], none)) ∧
    (Tricycle.allow_enqueue envZero demoTrike demoPassenger = true →
      ∃ pf evs,
        (Tricycle.enqueueNearbyPsgrBetter envZero demoTrike [demoPassenger] 9).2.1 =
          replaceById [demoPassenger] demoPassenger.id pf ∧
        pf.events = demoPassenger.events ++
          ⟨.ENQUEUE, .str demoTrike.id, 9, demoPassenger.src⟩ :: evs) :=
  C5_thm envZero demoTrike [demoPassenger] 9 0 demoPassenger [] rfl (by decide) (by decide)

/-- selectMinBy only returns none on the empty list. -/
theorem selectMinBy_eq_none {α : Type} (f : α → ℚ) :
    ∀ l : List α, selectMinBy f l = none → l = []
  | [], _ => rfl
  | x :: xs, h => by
    unfold selectMinBy at h
    cases hx : selectMinBy f xs with
    | none => rw [hx] at h; simp at h
    | some b =>
      rw [hx] at h
      dsimp only at h
      split at h <;> simp at h

/-- The element selectMinBy returns belongs to the list. -/
theorem selectMinBy_mem {α : Type} (f : α → ℚ) :
    ∀ (l : List α) (a : α), selectMinBy f l = some a → a ∈ l
  | [], a, h => by simp [selectMinBy] at h
  | x :: xs, a, h => by
    unfold selectMinBy at h
    cases hx : selectMinBy f xs with
    | none =>
      rw [hx] at h
      injection h with h
      subst h
      exact List.mem_cons_self x xs
    | some b =>
      rw [hx] at h
      dsimp only at h
      split at h
      · injection h with h
        subst h
        exact List.mem_cons_of_mem x (selectMinBy_mem f xs _ hx)
      · injection h with h
        subst h
        exact List.mem_cons_self x xs

/-- The element selectMinBy returns attains the minimum of the key over
the list. -/
theorem selectMinBy_min {α : Type} (f : α → ℚ) :
    ∀ (l : List α) (a : α), selectMinBy f l = some a → ∀ b ∈ l, f a ≤ f b
  | [], a, h => by simp [selectMinBy] at h
  | x :: xs, a, h => by
    unfold selectMinBy at h
    cases hx : selectMinBy f xs with
    | none =>
      rw [hx] at h
      injection h with h
      subst h
      have hxs : xs = [] := selectMinBy_eq_none f xs hx
      subst hxs
      intro b hb
      simp at hb
      subst hb
      exact le_refl _
    | some c =>
      rw [hx] at h
      dsimp only at h
      have hc := selectMinBy_min f xs c hx
      split at h
      · rename_i hlt
        injection h with h
        subst h
        intro b hb
        rcases List.mem_cons.mp hb with rfl | hb2
        · exact le_of_lt hlt
        · exact hc b hb2
      · rename_i hnlt
        injection h with h
        subst h
        intro b hb
        rcases List.mem_cons.mp hb with rfl | hb2
        · exact le_refl _
        · exact le_trans (not_lt.mp hnlt) (hc b hb2)

/-- Indexing a list at the index found for one of its members yields
that member. -/
theorem get?_findIdx_self {α : Type} [DecidableEq α] (b : α) :
    ∀ l : List α, b ∈ l → l.get? (l.findIdx fun q => decide (q = b)) = some b
  | x :: xs, hb => by
    by_cases hx : x = b
    · subst hx
      rw [List.findIdx_cons]
      simp
    · rw [List.findIdx_cons]
      have hdx : (decide (x = b)) = false := by simp [hx]
      rw [hdx]
      dsimp only [cond]
      have hbxs : b ∈ xs := by
        rcases List.mem_cons.mp hb with rfl | h2
        · exact absurd rfl hx
        · exact h2
      simpa using get?_findIdx_self b xs hbxs

/-- Claim C8: for a non-empty onboard list, the brute-force scheduler
returns the distance-minimal permutation (ties resolved by enumeration
order): its total route length is at most that of every permutation of
the onboard set, the returned passenger is the head of the winning
permutation, and the returned index points at that passenger in the
original list. -/
theorem C8_thm (dist : Point → Point → ℚ) (src : Point) (passengers : List Passenger)
    (h : passengers ≠ []) :
    ∃ best idx p,
      sort_path_brute dist src passengers = (best, idx) ∧
      smart_scheduler dist src passengers = some (idx, p) ∧
      best.head? = some p ∧
      passengers.get? idx = some p ∧
      best.Perm passengers ∧
      ∀ perm : List Passenger, perm.Perm passengers →
        routeLength dist src best ≤ routeLength dist src perm := by
  cases hsel : selectMinBy (fun perm => routeLength dist src perm) passengers.permutations with
  | none =>
    have hnil := selectMinBy_eq_none _ _ hsel
    have hmem : passengers ∈ passengers.permutations :=
      List.mem_permutations.mpr (List.Perm.refl _)
    rw [hnil] at hmem
    simp at hmem
  | some m =>
    have hmm := selectMinBy_mem _ _ _ hsel
    have hmin := selectMinBy_min _ _ _ hsel
    have hperm : m.Perm passengers := List.mem_permutations.mp hmm
    cases m with
    | nil => exact absurd (List.Perm.eq_nil hperm.symm) h
    | cons b0 bs =>
      have hspb : sort_path_brute dist src passengers
          = (b0 :: bs, passengers.findIdx (fun q => decide (q = b0))) := by
        unfold sort_path_brute
        rw [hsel]
      have hb0 : b0 ∈ passengers := hperm.mem_iff.mp (List.mem_cons_self b0 bs)
      have hget := get?_findIdx_self b0 passengers hb0
      refine ⟨b0 :: bs, passengers.findIdx (fun q => decide (q = b0)), b0, hspb, ?_, rfl,
        hget, hperm, ?_⟩
      · unfold smart_scheduler
        rw [hspb]
        dsimp only
        rw [hget]
      · intro perm hp
        exact hmin perm (List.mem_permutations.mpr hp)

/-- Claim C8 witness: the scheduler on a concrete two-passenger onboard
list under a constant metric. -/
theorem C8_thm_witness :
    ∃ best idx p,
      sort_path_brute (fun _ _ => 1) ⟨0, 0⟩ [demoPassenger, demoOnboard] = (best, idx) ∧
      smart_scheduler (fun _ _ => 1) ⟨0, 0⟩ [demoPassenger, demoOnboard] = some (idx, p) ∧
      best.head? = some p ∧
      [demoPassenger, demoOnboard].get? idx = some p ∧
      best.Perm [demoPassenger, demoOnboard] ∧
      ∀ perm : List Passenger, perm.Perm [demoPassenger, demoOnboard] →
        routeLength (fun _ _ => 1) ⟨0, 0⟩ best ≤ routeLength (fun _ _ => 1) ⟨0, 0⟩ perm :=
  C8_thm (fun _ _ => 1) ⟨0, 0⟩ [demoPassenger, demoOnboard] (by simp)

/-- Claim C1 counterexample: after onDropoff the passenger is COMPLETED
yet claimedBy still holds the delivering vehicle, so the stated
invariant (claimedBy non-null iff ENQUEUED or ONBOARD) is violated right
after a dropoff transition. -/
theorem C1_counterexample :
    demoDropped.status = .COMPLETED ∧
    demoDropped.claimed_by = some ("trike_0") ∧
    ¬ claimedInvariant demoDropped := by
  decide

/-- Claim C1 amended: the invariant holds at creation and after
onEnqueue, onLoad and onReset; onDropoff sets status COMPLETED but
leaves claimedBy unchanged, so a COMPLETED passenger delivered through
onDropoff keeps the delivering vehicle id rather than null. -/
theorem C1_amended_thm (p : Passenger) (v i : String) (s d loc : Point) (time ct dt : ℤ) :
    claimedInvariant (p.onEnqueue v time loc) ∧
    claimedInvariant (p.onLoad v time loc) ∧
    claimedInvariant (p.onReset time loc) ∧
    (p.onDropoff time loc).status = .COMPLETED ∧
    (p.onDropoff time loc).claimed_by = p.claimed_by ∧
    claimedInvariant (Passenger.init i s d ct dt) := by
  refine ⟨?_, ?_, ?_, rfl, rfl, ?_⟩ <;>
    simp [claimedInvariant, Passenger.onEnqueue, Passenger.onLoad, Passenger.onReset,
      Passenger.init]

/-- Claim C3: updateStatus succeeds and installs the new status exactly
for the pairs of the spec section 4.2 table, and any pair outside the
table is a no-op reported as failure (never an exception: updateStatus
is total). -/
theorem C3_thm (t : Tricycle) (s : TricycleStatus) :
    ((t.status, s) ∈ specTransitionTable → t.updateStatus s = ({ t with status := s }, true)) ∧
    ((t.status, s) ∉ specTransitionTable → t.updateStatus s = (t, false)) := by
  have hiff : s ∈ valid_transitions t.status ↔ (t.status, s) ∈ specTransitionTable := by
    cases h : t.status <;> cases s <;> decide
  constructor
  · intro hmem
    have hv : t.validateStatusTransition s = true :=
      decide_eq_true (hiff.2 hmem)
    simp [Tricycle.updateStatus, hv]
  · intro hmem
    have hv : t.validateStatusTransition s = false :=
      decide_eq_false (fun hm => hmem (hiff.1 hm))
    simp [Tricycle.updateStatus, hv]

/-- Claim C3 witness: on the demonstration vehicle (IDLE) the transition
to SERVING is in the table and succeeds, while the transition to ROAMING
is outside the table and is rejected without change. -/
theorem C3_thm_witness :
    demoTrike.updateStatus .SERVING = ({ demoTrike with status := .SERVING }, true) ∧
    demoTrike.updateStatus .ROAMING = (demoTrike, false) :=
  ⟨(C3_thm demoTrike .SERVING).1 (by decide), (C3_thm demoTrike .ROAMING).2 (by decide)⟩

/-- Claim C4 counterexample: onEnqueue on a passenger that is not
WAITING (here ONBOARD) does not fail silently; it overwrites status to
ENQUEUED and claimedBy to the vehicle id. -/
theorem C4_counterexample :
    demoOnboard.status ≠ .WAITING ∧
    (demoOnboard.onEnqueue ("trike_1") 5 ⟨1, 2⟩).status = .ENQUEUED ∧
    (demoOnboard.onEnqueue ("trike_1") 5 ⟨1, 2⟩).claimed_by = some ("trike_1") := by
  decide

/-- Claim C4 amended: onEnqueue has no internal WAITING guard: for every
passenger, whatever its current status, it sets status to ENQUEUED, sets
claimedBy to the vehicle id and appends one ENQUEUE event; protection
rests entirely on the callers, which filter for WAITING before calling. -/
theorem C4_amended_thm (p : Passenger) (v : String) (time : ℤ) (loc : Point) :
    (p.onEnqueue v time loc).status = .ENQUEUED ∧
    (p.onEnqueue v time loc).claimed_by = some v ∧
    (p.onEnqueue v time loc).events = p.events ++ [⟨.ENQUEUE, .str v, time, loc⟩] :=
  ⟨rfl, rfl, rfl⟩

end Claims

end TriSim
